import Mathlib

/-!
Verification of the Tool-Invocation Protocol and Agent Orchestration Runtime
of the lumina todo application (chatbot subsystem).

The Lean definitions below are a shallow embedding of the Python sources:
  - chatbot/agent/tools.py        (tool schema translation, dispatch, error text)
  - chatbot/agent/conversation.py (session lifecycle, context window, messages)
  - chatbot/agent/chat.py         (orchestration loop)
  - chatbot/agent/config.py       (agent settings defaults)
  - chatbot/mcp_server/main.py    (dispatch endpoint, conversation endpoints)
  - chatbot/mcp_server/schemas.py (pydantic parameter models)
  - chatbot/mcp_server/tools/__init__.py (tool registry)

Python dicts are modelled as insertion-ordered association lists, datetimes as
integer timestamps (seconds), UUIDs as canonical-form strings or opaque
naturals where parsing is not at issue.
-/

namespace Lumina

/-- JSON-like values, the payload type of Python dicts in the runtime. -/
inductive JVal where
  | s : String → JVal
  | i : Int → JVal
  | b : Bool → JVal
  | arr : List JVal → JVal
  | obj : List (String × JVal) → JVal
  | null : JVal
deriving Repr

/-- Python dict assignment `d[k] = v`: replaces the value at an existing key
in place (dicts never hold a key twice), otherwise appends the new pair. -/
def dictSet {α : Type} : List (String × α) → String → α → List (String × α)
  | [], k, v => [(k, v)]
  | (k', v') :: rest, k, v =>
    if k' = k then (k, v) :: rest else (k', v') :: dictSet rest k v

/-- Python `d.get(k)` / `d[k]` lookup on the association-list dict model. -/
def dictGet? {α : Type} : List (String × α) → String → Option α
  | [], _ => none
  | (k', v) :: rest, k => if k' = k then some v else dictGet? rest k

/-! ### chatbot/agent/tools.py — dispatch-side parameter construction

`execute_mcp_tool(tool_name, arguments, user_id)` builds the dispatched
parameter dict as `parameters = \x7b**arguments, "user_id": str(user_id)\x7d`
(line 221): the caller-supplied map is spread first and the literal
`"user_id"` entry is written last, so it overwrites any caller value. -/

/-- The parameter dict sent to /mcp/call by `execute_mcp_tool` (tools.py:221). -/
def executeMcpToolParameters (arguments : List (String × JVal)) (user_id : String) :
    List (String × JVal) :=
  dictSet arguments "user_id" (JVal.s user_id)

/-! ### chatbot/agent/tools.py — schema translation (mcp_to_openai_function) -/

/-- `SYSTEM_INJECTED_FIELDS` (tools.py:30). -/
def SYSTEM_INJECTED_FIELDS : List String := ["user_id"]

/-- The `parameters` JSON-schema slice that `mcp_to_openai_function` reads:
`properties` (a dict of per-field subschemas) and `required` (a name list).
Per-field subschema bodies are carried opaquely (as `JVal.null`) throughout:
no code path inspected here ever looks inside them, only at the key sets. -/
structure JsonSchema where
  properties : List (String × JVal)
  required : List String
deriving Repr

/-- An entry of the /mcp/tools listing: `\x7bname, description, parameters\x7d`. -/
structure MCPToolDict where
  name : String
  description : String
  parameters : JsonSchema
deriving Repr

/-- The model-facing function declaration produced by `mcp_to_openai_function`
(`\x7b"type": "function", "function": \x7bname, description, parameters\x7d\x7d`,
with `parameters` of type object carrying the filtered properties/required). -/
structure OpenAIFunction where
  name : String
  description : String
  properties : List (String × JVal)
  required : List String
deriving Repr

/-- `mcp_to_openai_function` (tools.py:115-161): copies name and description,
and filters `user_id` (the system-injected field) out of both the
`properties` dict and the `required` list. -/
def mcp_to_openai_function (t : MCPToolDict) : OpenAIFunction :=
  { name := t.name
    description := t.description
    properties := t.parameters.properties.filter
      (fun kv => !(SYSTEM_INJECTED_FIELDS.contains kv.1))
    required := t.parameters.required.filter
      (fun f => !(SYSTEM_INJECTED_FIELDS.contains f)) }

/-! ### chatbot/mcp_server/schemas.py — pydantic parameter model JSON schemas

`model_json_schema()` of each parameter model: the property key set follows
the field declaration order, `required` lists the fields without defaults. -/

/-- `AddTaskParams.model_json_schema()` key structure (schemas.py:59-112). -/
def addTaskParamsSchema : JsonSchema :=
  { properties := [("user_id", JVal.null), ("title", JVal.null),
      ("description", JVal.null), ("priority", JVal.null), ("category", JVal.null),
      ("tags", JVal.null), ("due_date", JVal.null), ("due_time", JVal.null)]
    required := ["user_id", "title"] }

/-- `ListTasksParams.model_json_schema()` key structure (schemas.py:115-127). -/
def listTasksParamsSchema : JsonSchema :=
  { properties := [("user_id", JVal.null), ("status", JVal.null)]
    required := ["user_id"] }

/-- `CompleteTaskParams.model_json_schema()` key structure (schemas.py:130-139). -/
def completeTaskParamsSchema : JsonSchema :=
  { properties := [("user_id", JVal.null), ("task_id", JVal.null)]
    required := ["user_id", "task_id"] }

/-- `DeleteTaskParams.model_json_schema()` key structure (schemas.py:142-151). -/
def deleteTaskParamsSchema : JsonSchema :=
  { properties := [("user_id", JVal.null), ("task_id", JVal.null)]
    required := ["user_id", "task_id"] }

/-- `UpdateTaskParams.model_json_schema()` key structure (schemas.py:154-243). -/
def updateTaskParamsSchema : JsonSchema :=
  { properties := [("user_id", JVal.null), ("task_id", JVal.null),
      ("title", JVal.null), ("description", JVal.null), ("priority", JVal.null),
      ("category", JVal.null), ("tags", JVal.null), ("due_date", JVal.null),
      ("due_time", JVal.null), ("clear_due_date", JVal.null),
      ("clear_due_time", JVal.null), ("clear_description", JVal.null)]
    required := ["user_id", "task_id"] }

/-! ### chatbot/mcp_server/schemas.py — pydantic validation semantics

`tool.params_model(**request.parameters)` validates every field against its
declaration, collecting one error record per violated field (pydantic v2
collects all field errors into a single ValidationError, in field order).
Each validator below returns that error list; an empty list means the model
was constructed. -/

/-- One pydantic error record as serialized by main.py:221-228:
`\x7bloc, msg, type\x7d`. -/
structure FieldError where
  loc : List String
  msg : String
  typ : String
deriving DecidableEq, Repr

/-- Hexadecimal digit test for UUID parsing. -/
def isHexDigit (c : Char) : Bool :=
  c.isDigit || (97 ≤ c.toNat && c.toNat ≤ 102) || (65 ≤ c.toNat && c.toNat ≤ 70)

/-- Split a character list at every occurrence of a separator. -/
def splitOnChar (sep : Char) : List Char → List (List Char)
  | [] => [[]]
  | c :: rest =>
    if c = sep then [] :: splitOnChar sep rest
    else match splitOnChar sep rest with
      | [] => [[c]]
      | g :: gs => (c :: g) :: gs

/-- Canonical 8-4-4-4-12 UUID spelling, the form every caller in this system
uses (`str(uuid)`); models the accepting behaviour of `uuid.UUID` on it.
(`uuid.UUID` also tolerates braces/urn/hyphen-free spellings, which no code
path here produces.)  Character 45 is the hyphen. -/
def isCanonicalUUID (s : String) : Bool :=
  ((splitOnChar (Char.ofNat 45) s.data).map List.length) == [8, 4, 4, 4, 12] &&
    (splitOnChar (Char.ofNat 45) s.data).all (fun p => p.all isHexDigit)

/-- Validation of a required UUID field. -/
def validateUUIDField (p : List (String × JVal)) (field : String) : List FieldError :=
  match dictGet? p field with
  | none => [⟨[field], "Field required", "missing"⟩]
  | some (JVal.s s) =>
    if isCanonicalUUID s then []
    else [⟨[field], "Input should be a valid UUID", "uuid_parsing"⟩]
  | some _ => [⟨[field], "UUID input should be a string, bytes or UUID object",
      "uuid_type"⟩]

/-- Validation of a required title: str, 1-200 chars, plus the
`title_not_whitespace` field validator (schemas.py:106-112). -/
def validateRequiredTitle (p : List (String × JVal)) : List FieldError :=
  match dictGet? p "title" with
  | none => [⟨["title"], "Field required", "missing"⟩]
  | some (JVal.s s) =>
    if s.length < 1 then
      [⟨["title"], "String should have at least 1 character", "string_too_short"⟩]
    else if 200 < s.length then
      [⟨["title"], "String should have at most 200 characters", "string_too_long"⟩]
    else if s.trim = "" then
      [⟨["title"], "Value error, Title cannot be empty or whitespace only",
        "value_error"⟩]
    else []
  | some _ => [⟨["title"], "Input should be a valid string", "string_type"⟩]

/-- Validation of an optional string field, with a maximum length when the
declaration has one. -/
def validateOptionalStr (p : List (String × JVal)) (field : String)
    (maxLen : Option Nat) : List FieldError :=
  match dictGet? p field with
  | none => []
  | some JVal.null => []
  | some (JVal.s s) =>
    match maxLen with
    | some m =>
      if m < s.length then
        [⟨[field], "String should have at most " ++ toString m ++ " characters",
          "string_too_long"⟩]
      else []
    | none => []
  | some _ => [⟨[field], "Input should be a valid string", "string_type"⟩]

/-- Validation of an optional string field against an enum of values
(`TaskPriorityEnum`, `TaskCategoryEnum`, `TaskStatus`). -/
def validateEnumField (p : List (String × JVal)) (field : String)
    (allowed : List String) (nullable : Bool) : List FieldError :=
  match dictGet? p field with
  | none => []
  | some JVal.null =>
    if nullable then []
    else [⟨[field], "Input should be one of the allowed values", "enum"⟩]
  | some (JVal.s s) =>
    if allowed.contains s then []
    else [⟨[field], "Input should be one of the allowed values", "enum"⟩]
  | some _ => [⟨[field], "Input should be one of the allowed values", "enum"⟩]

/-- Validation of an optional list-of-strings field (`tags`). -/
def validateTagsField (p : List (String × JVal)) (nullable : Bool) : List FieldError :=
  match dictGet? p "tags" with
  | none => []
  | some JVal.null =>
    if nullable then []
    else [⟨["tags"], "Input should be a valid list", "list_type"⟩]
  | some (JVal.arr xs) =>
    if xs.all (fun x => match x with | JVal.s _ => true | _ => false) then []
    else [⟨["tags"], "Input should be a valid string", "string_type"⟩]
  | some _ => [⟨["tags"], "Input should be a valid list", "list_type"⟩]

/-- Lax-mode pydantic bool coercion for the `clear_*` flags. -/
def parseBoolLax : JVal → Option Bool
  | JVal.b b => some b
  | JVal.i 0 => some false
  | JVal.i 1 => some true
  | JVal.s s =>
    if ["true", "t", "y", "yes", "on", "1"].contains s.toLower then some true
    else if ["false", "f", "n", "no", "off", "0"].contains s.toLower then some false
    else none
  | _ => none

/-- Validation of an optional boolean flag with default `False`. -/
def validateBoolFlag (p : List (String × JVal)) (field : String) : List FieldError :=
  match dictGet? p field with
  | none => []
  | some v =>
    match parseBoolLax v with
    | some _ => []
    | none => [⟨[field], "Input should be a valid boolean", "bool_parsing"⟩]

/-- `AddTaskParams(**p)` validation (schemas.py:59-112), field order:
user_id, title, description, priority, category, tags, due_date, due_time. -/
def validateAddTask (p : List (String × JVal)) : List FieldError :=
  validateUUIDField p "user_id" ++ validateRequiredTitle p ++
    validateOptionalStr p "description" (some 1000) ++
    validateEnumField p "priority" ["high", "medium", "low"] false ++
    validateEnumField p "category" ["work", "personal", "shopping", "health", "other"]
      false ++
    validateTagsField p false ++
    validateOptionalStr p "due_date" none ++
    validateOptionalStr p "due_time" none

/-- `ListTasksParams(**p)` validation (schemas.py:115-127). -/
def validateListTasks (p : List (String × JVal)) : List FieldError :=
  validateUUIDField p "user_id" ++
    validateEnumField p "status" ["all", "pending", "completed"] false

/-- `CompleteTaskParams(**p)` validation (schemas.py:130-139). -/
def validateCompleteTask (p : List (String × JVal)) : List FieldError :=
  validateUUIDField p "user_id" ++ validateUUIDField p "task_id"

/-- `DeleteTaskParams(**p)` validation (schemas.py:142-151). -/
def validateDeleteTask (p : List (String × JVal)) : List FieldError :=
  validateUUIDField p "user_id" ++ validateUUIDField p "task_id"

/-- Optional-title validation of `UpdateTaskParams` (validator runs only on a
provided, non-null value; schemas.py:220-226). -/
def validateOptionalTitle (p : List (String × JVal)) : List FieldError :=
  match dictGet? p "title" with
  | none => []
  | some JVal.null => []
  | some (JVal.s s) =>
    if s.length < 1 then
      [⟨["title"], "String should have at least 1 character", "string_too_short"⟩]
    else if 200 < s.length then
      [⟨["title"], "String should have at most 200 characters", "string_too_long"⟩]
    else if s.trim = "" then
      [⟨["title"], "Value error, Title cannot be empty or whitespace only",
        "value_error"⟩]
    else []
  | some _ => [⟨["title"], "Input should be a valid string", "string_type"⟩]

/-- Per-field errors of `UpdateTaskParams(**p)` (schemas.py:154-226). -/
def updateTaskFieldErrors (p : List (String × JVal)) : List FieldError :=
  validateUUIDField p "user_id" ++ validateUUIDField p "task_id" ++
    validateOptionalTitle p ++ validateOptionalStr p "description" (some 1000) ++
    validateEnumField p "priority" ["high", "medium", "low"] true ++
    validateEnumField p "category" ["work", "personal", "shopping", "health", "other"]
      true ++
    validateTagsField p true ++
    validateOptionalStr p "due_date" none ++
    validateOptionalStr p "due_time" none ++
    validateBoolFlag p "clear_due_date" ++ validateBoolFlag p "clear_due_time" ++
    validateBoolFlag p "clear_description"

/-- Whether a provided value parses to a non-`None` optional field. -/
def providedNonNull (p : List (String × JVal)) (field : String) : Bool :=
  match dictGet? p field with
  | none => false
  | some JVal.null => false
  | some _ => true

/-- Whether a `clear_*` flag parses to `True`. -/
def flagTrue (p : List (String × JVal)) (field : String) : Bool :=
  match dictGet? p field with
  | none => false
  | some v => (parseBoolLax v).getD false

/-- The `any([...])` of `UpdateTaskParams.model_post_init`
(schemas.py:228-243): is at least one updatable field provided? -/
def updateTaskHasUpdate (p : List (String × JVal)) : Bool :=
  providedNonNull p "title" || providedNonNull p "description" ||
    providedNonNull p "priority" || providedNonNull p "category" ||
    providedNonNull p "tags" || providedNonNull p "due_date" ||
    providedNonNull p "due_time" || flagTrue p "clear_due_date" ||
    flagTrue p "clear_due_time" || flagTrue p "clear_description"

/-- The single error record produced when `model_post_init` raises
`ValueError("At least one field must be provided to update")`. -/
def updateTaskPostInitError : FieldError :=
  ⟨[], "Value error, At least one field must be provided to update", "value_error"⟩

/-- `UpdateTaskParams(**p)` validation: field errors first; when all fields
validate, `model_post_init` rejects a parameter set providing nothing to
update. -/
def validateUpdateTask (p : List (String × JVal)) : List FieldError :=
  let errs := updateTaskFieldErrors p
  if errs.isEmpty && !(updateTaskHasUpdate p) then [updateTaskPostInitError] else errs

/-! ### chatbot/mcp_server/tools/__init__.py — registry and tool listing -/

/-- A registered tool (`ToolDefinition`, tools/__init__.py:23-58): the handler
itself is dispatched elsewhere; here we carry the schema of its params model
and the validation its construction performs. -/
structure ToolDefinition where
  name : String
  description : String
  paramsSchema : JsonSchema
  validate : List (String × JVal) → List FieldError

/-- `ToolDefinition.to_dict` (tools/__init__.py:49-58): returns name,
description and the FULL `model_json_schema()` of the params model —
no field is stripped here. -/
def ToolDefinition.to_dict (t : ToolDefinition) : MCPToolDict :=
  { name := t.name, description := t.description, parameters := t.paramsSchema }

/-- The `add_task` registration (tools/add_task.py:53-57). -/
def addTaskTool : ToolDefinition :=
  { name := "add_task"
    description := "Create a new task for a user. Requires title. Supports description, priority (high/medium/low), category (work/personal/shopping/health/other), tags, due_date (YYYY-MM-DD), and due_time (HH:MM)."
    paramsSchema := addTaskParamsSchema
    validate := validateAddTask }

/-- The `list_tasks` registration (tools/list_tasks.py:31-35). -/
def listTasksTool : ToolDefinition :=
  { name := "list_tasks"
    description := "List tasks for a user. Optionally filter by status (all, pending, completed)."
    paramsSchema := listTasksParamsSchema
    validate := validateListTasks }

/-- The `complete_task` registration (tools/complete_task.py:35-39). -/
def completeTaskTool : ToolDefinition :=
  { name := "complete_task"
    description := "Toggle a task\x27s completion status (complete/uncomplete). Requires user_id and task_id."
    paramsSchema := completeTaskParamsSchema
    validate := validateCompleteTask }

/-- The `delete_task` registration (tools/delete_task.py:33-37). -/
def deleteTaskTool : ToolDefinition :=
  { name := "delete_task"
    description := "Permanently delete a task. Requires user_id and task_id."
    paramsSchema := deleteTaskParamsSchema
    validate := validateDeleteTask }

/-- The `update_task` registration (tools/update_task.py:56-60). -/
def updateTaskTool : ToolDefinition :=
  { name := "update_task"
    description := "Update any task field: title, description, priority, category, tags, due_date, due_time. Only updates fields that are explicitly provided."
    paramsSchema := updateTaskParamsSchema
    validate := validateUpdateTask }

/-- The five tools registered at import time (mcp_server/main.py:54-58), in
registration order. -/
def registryTools : List ToolDefinition :=
  [addTaskTool, listTasksTool, completeTaskTool, deleteTaskTool, updateTaskTool]

/-- `ToolRegistry.get` (tools/__init__.py:115-124). -/
def registryGet (name : String) : Option ToolDefinition :=
  registryTools.find? (fun t => t.name = name)

/-- `ToolRegistry.list_tools` (tools/__init__.py:126-132), the body of the
GET /mcp/tools response. -/
def registryListTools : List MCPToolDict :=
  registryTools.map ToolDefinition.to_dict

/-! ### chatbot/mcp_server/main.py — POST /mcp/call dispatch -/

/-- Serialization of one pydantic error record (main.py:221-228). -/
def fieldErrorToJVal (e : FieldError) : JVal :=
  JVal.obj [("loc", JVal.arr (e.loc.map JVal.s)), ("msg", JVal.s e.msg),
    ("type", JVal.s e.typ)]

/-- The response envelope of /mcp/call: `status` plus either `data` or an
`error` object. -/
structure Envelope where
  status : String
  data : Option JVal
  error : Option JVal
deriving Repr

/-- What the tool handler would do if it got invoked: return data, raise a
`ToolError(code, message, details)`, or raise an unexpected exception. -/
inductive HandlerOutcome where
  | success (data : JVal)
  | toolError (code message : String) (details : Option JVal)
  | raised (text : String)

/-- The unknown-tool envelope (main.py:197-205), listing available tools. -/
def unknownToolEnvelope (tool : String) : Envelope :=
  { status := "error", data := none
    error := some (JVal.obj
      [ ("code", JVal.s "VALIDATION_ERROR")
      , ("message", JVal.s ("Unknown tool: " ++ tool))
      , ("details", JVal.obj [("available_tools",
          JVal.arr ((registryListTools.map MCPToolDict.name).map JVal.s))]) ]) }

/-- The validation-error envelope (main.py:219-237): one envelope carrying
the serialization of the FULL collected error list. -/
def validationErrorEnvelope (errors : List FieldError) : Envelope :=
  { status := "error", data := none
    error := some (JVal.obj
      [ ("code", JVal.s "VALIDATION_ERROR")
      , ("message", JVal.s "Invalid parameters")
      , ("details", JVal.obj [("errors", JVal.arr (errors.map fieldErrorToJVal))]) ]) }

/-- The envelope of a raised `ToolError` (`build_error_response`,
base.py:253-262; main.py:239-244): the serialized ErrorResponse model,
whose dump includes its constant `status` field. -/
def toolErrorEnvelope (code message : String) (details : Option JVal) : Envelope :=
  { status := "error", data := none
    error := some (JVal.obj
      [ ("status", JVal.s "error"), ("code", JVal.s code)
      , ("message", JVal.s message), ("details", details.getD JVal.null) ]) }

/-- The unexpected-failure envelope (main.py:246-260); the exception text
appears in details only behind the development flag. -/
def internalErrorEnvelope (text : String) (isDev : Bool) : Envelope :=
  { status := "error", data := none
    error := some (JVal.obj
      [ ("code", JVal.s "INTERNAL_ERROR")
      , ("message", JVal.s "Tool execution failed")
      , ("details", if isDev then JVal.obj [("error", JVal.s text)] else JVal.null) ]) }

/-- `call_mcp_tool` (main.py:176-260): unknown tool → VALIDATION_ERROR
envelope; known tool → params-model construction, whose ValidationError is
turned into a VALIDATION_ERROR envelope without invoking the handler;
otherwise the handler runs and its outcome is enveloped.  The returned
boolean records whether the handler was invoked. -/
def call_mcp_tool (tool : String) (parameters : List (String × JVal))
    (handler : HandlerOutcome) (isDev : Bool) : Envelope × Bool :=
  match registryGet tool with
  | none => (unknownToolEnvelope tool, false)
  | some t =>
    let errs := t.validate parameters
    if errs.isEmpty then
      match handler with
      | .success d => ({ status := "success", data := some d, error := none }, true)
      | .toolError c m dt => (toolErrorEnvelope c m dt, true)
      | .raised text => (internalErrorEnvelope text isDev, true)
    else (validationErrorEnvelope errs, false)

/-! ### chatbot/mcp_server/models.py — Conversation and Message rows

UUIDs are modelled as naturals, datetimes as integer timestamps (seconds,
UTC); `_ensure_utc` (conversation.py:31-39) is the identity in this model. -/

/-- `MessageRole` (models.py:86-95). -/
inductive MessageRole where
  | user
  | assistant
deriving DecidableEq, Repr

/-- `MessageRole.value` — the string payload of the enum. -/
def MessageRole.value : MessageRole → String
  | .user => "user"
  | .assistant => "assistant"

/-- `Conversation` row (models.py:97-121). -/
structure Conversation where
  id : Nat
  user_id : Nat
  created_at : Int
  last_activity : Int
deriving DecidableEq, Repr

/-- `Message` row (models.py:124-144). -/
structure Message where
  id : Nat
  conversation_id : Nat
  role : MessageRole
  content : String
  created_at : Int
deriving DecidableEq, Repr

/-- The durable store the agent layer queries. -/
structure AgentDB where
  conversations : List Conversation
  messages : List Message
deriving DecidableEq, Repr

/-! ### chatbot/agent/config.py — AgentSettings defaults (lines 36-44) -/

/-- `AgentSettings.context_message_limit` default (config.py:38). -/
def context_message_limit : Nat := 10

/-- `AgentSettings.max_tool_rounds` default (config.py:41). -/
def max_tool_rounds : Nat := 5

/-- `AgentSettings.session_timeout_minutes` default (config.py:44). -/
def session_timeout_minutes : Int := 30

/-! ### chatbot/agent/conversation.py — session lookup and context window -/

/-- `_get_conversation_by_id` (conversation.py:121-141): the single SELECT
filtered on both the conversation id and the owning user id. -/
def getConversationById (db : AgentDB) (conversation_id user_id : Nat) :
    Option Conversation :=
  db.conversations.find? (fun c => c.id == conversation_id && c.user_id == user_id)

/-- The WHERE clause of the fallback query of `get_or_create_conversation`
(conversation.py:89-95): conversations of the owner whose `last_activity`
is at or after the cutoff. -/
def activeConversations (db : AgentDB) (user_id : Nat) (cutoff : Int) :
    List Conversation :=
  db.conversations.filter (fun c => c.user_id == user_id && cutoff ≤ c.last_activity)

/-- The fall-through of `get_or_create_conversation` (conversation.py:88-118):
the most recently active conversation of the owner at or after the cutoff
(`ORDER BY last_activity DESC LIMIT 1`); a fresh conversation when none
qualifies.  `freshId` and `now` stand for the uuid4 and `datetime.now(UTC)`
effects. -/
def findOrCreateConversation (db : AgentDB) (user_id : Nat) (cutoff now : Int)
    (freshId : Nat) : Conversation × AgentDB :=
  match (List.insertionSort (fun a b : Conversation => b.last_activity ≤ a.last_activity)
      (activeConversations db user_id cutoff)).head? with
  | some c => (c, db)
  | none =>
    let conv : Conversation :=
      { id := freshId, user_id := user_id, created_at := now, last_activity := now }
    (conv, { db with conversations := db.conversations ++ [conv] })

/-- `get_or_create_conversation` (conversation.py:42-118).  The timeout is
`session_timeout_minutes` converted to seconds, `cutoff = now - timeout`;
an explicit conversation id is honoured only when the ownership-filtered
lookup succeeds and `last_activity >= cutoff`. -/
def get_or_create_conversation (db : AgentDB) (now : Int) (user_id : Nat)
    (conversation_id : Option Nat) (freshId : Nat) : Conversation × AgentDB :=
  let timeout := session_timeout_minutes * 60
  let cutoff := now - timeout
  match conversation_id with
  | some cid =>
    match getConversationById db cid user_id with
    | some conv =>
      if cutoff ≤ conv.last_activity then (conv, db)
      else findOrCreateConversation db user_id cutoff now freshId
    | none => findOrCreateConversation db user_id cutoff now freshId
  | none => findOrCreateConversation db user_id cutoff now freshId

/-- One entry of the OpenAI-format context array (conversation.py:183-186). -/
structure CtxDict where
  role : String
  content : String
deriving DecidableEq, Repr

/-- The SELECT of `get_context_messages` (conversation.py:169-177):
messages of the conversation, `ORDER BY created_at DESC LIMIT limit`. -/
def contextQuery (db : AgentDB) (conversation_id : Nat) (limit : Nat) :
    List Message :=
  (List.insertionSort (fun a b : Message => b.created_at ≤ a.created_at)
    (db.messages.filter (fun m => m.conversation_id == conversation_id))).take limit

/-- `get_context_messages` (conversation.py:147-194): the query slice is
reversed into chronological order and converted to role/content dicts;
a missing `limit` falls back to `settings.context_message_limit`. -/
def get_context_messages (db : AgentDB) (conversation_id : Nat)
    (limit : Option Nat) : List CtxDict :=
  let lim := limit.getD context_message_limit
  ((contextQuery db conversation_id lim).reverse).map
    (fun m => { role := m.role.value, content := m.content })

/-- A serialized message of the GET /conversations/.../messages response
(main.py:491-498). -/
structure MessageDict where
  id : Nat
  role : String
  content : String
  created_at : Int
deriving DecidableEq, Repr

/-- `get_conversation_messages` (conversation.py:327-367): `None` when the
ownership-filtered lookup fails, else the conversation's messages
`ORDER BY created_at` (ascending) limited to `limit`. -/
def get_conversation_messages (db : AgentDB) (conversation_id user_id : Nat)
    (limit : Nat) : Option (List MessageDict) :=
  match getConversationById db conversation_id user_id with
  | none => none
  | some _ =>
    let msgs := (List.insertionSort (fun a b : Message => a.created_at ≤ b.created_at)
      (db.messages.filter (fun m => m.conversation_id == conversation_id))).take limit
    some (msgs.map (fun m =>
      { id := m.id, role := m.role.value, content := m.content,
        created_at := m.created_at }))

/-! ### chatbot/mcp_server/main.py — GET /conversations/\x7bid\x7d/messages -/

/-- Responses of the messages endpoint. -/
inductive MessagesResponse where
  | ok (messages : List MessageDict)
  | err (status : Nat) (code : String) (message : String)
deriving DecidableEq, Repr

/-- `get_messages` endpoint (main.py:443-522), after UUID parsing: the limit
is clamped to [1, 200]; a `None` from `get_conversation_messages` becomes
the 404 NOT_FOUND body, carrying no message data. -/
def get_messages (db : AgentDB) (conversation_id user_id : Nat) (limit : Nat) :
    MessagesResponse :=
  let lim := max 1 (min 200 limit)
  match get_conversation_messages db conversation_id user_id lim with
  | none => .err 404 "NOT_FOUND" "Conversation not found or you don\x27t have access"
  | some ms => .ok ms

/-! ### chatbot/agent/tools.py — error hierarchy and user-facing text -/

/-- Python dict merge `\x7b**d, **extra\x7d` (later entries win). -/
def dictMerge (d extra : List (String × JVal)) : List (String × JVal) :=
  extra.foldl (fun acc kv => dictSet acc kv.1 kv.2) d

/-- The `MCPToolError` hierarchy (tools.py:33-73), carrying each
constructor's arguments.  `base` is a bare `MCPToolError`. -/
inductive MCPToolErr where
  | base (message : String) (code : String) (details : List (String × JVal))
  | serverUnavailable (url : String) (error : String)
  | validationError (tool : String) (errors : List FieldError)
  | executionError (tool : String) (error : String)
      (extraDetails : List (String × JVal))

/-- `self.message` as set by each `__init__` (tools.py:36-73). -/
def MCPToolErr.message : MCPToolErr → String
  | .base m _ _ => m
  | .serverUnavailable url e => "MCP server unavailable at " ++ url ++ ": " ++ e
  | .validationError tool _ => "Invalid parameters for tool \x27" ++ tool ++ "\x27"
  | .executionError tool e _ => "Tool \x27" ++ tool ++ "\x27 failed: " ++ e

/-- `self.details` as set by each `__init__`; for `ToolExecutionError` the
caller-supplied details are merged last and may override. -/
def MCPToolErr.details : MCPToolErr → List (String × JVal)
  | .base _ _ d => d
  | .serverUnavailable url e => [("url", JVal.s url), ("error", JVal.s e)]
  | .validationError tool errs =>
    [("tool", JVal.s tool), ("errors", JVal.arr (errs.map fieldErrorToJVal))]
  | .executionError tool e extra =>
    dictMerge [("tool", JVal.s tool), ("error", JVal.s e)] extra

/-- Python exceptions escaping the runtime's own error taxonomy. -/
inductive PyExc where
  | indexError
deriving DecidableEq, Repr

/-- `format_tool_error_for_user` (tools.py:275-307): the `isinstance` chain.
For a `ToolValidationError`, Python takes `first_error.get("loc",
["unknown"])[-1]`: dispatch-server records always carry a "loc" key
(main.py:223 writes `err.get("loc", [])`), so the `["unknown"]` default is
dead for this data — but that key can hold an EMPTY list (the
`UpdateTaskParams.model_post_init` error serializes with `loc []`), and
`[-1]` then raises `IndexError`; the model returns that exception.  The
function takes no development-mode input at all. -/
def format_tool_error_for_user : MCPToolErr → Except PyExc String
  | .serverUnavailable _ _ =>
    .ok "I\x27m having trouble connecting to the task service. Please try again in a moment."
  | .validationError _ errs =>
    match errs with
    | [] => .ok "The request couldn\x27t be processed due to invalid data."
    | first :: _ =>
      match first.loc.getLast? with
      | none => .error PyExc.indexError
      | some field =>
        .ok ("There was a problem with the " ++ field ++ ": " ++ first.msg)
  | .executionError tool e extra =>
    match dictGet? (MCPToolErr.details (.executionError tool e extra)) "error" with
    | some (JVal.s "TASK_NOT_FOUND") =>
      .ok "I couldn\x27t find that task. It may have been deleted or doesn\x27t exist."
    | some (JVal.s "UNAUTHORIZED") =>
      .ok "You don\x27t have permission to access that task."
    | _ => .ok ("I encountered an issue: "
        ++ MCPToolErr.message (.executionError tool e extra))
  | .base _ _ _ =>
    .ok "Something went wrong while processing your request. Please try again."

/-- Is `pat` an initial segment of the character list? -/
def beginsWith : List Char → List Char → Bool
  | [], _ => true
  | _ :: _, [] => false
  | p :: ps, c :: cs => p = c && beginsWith ps cs

/-- Substring occurrence test on character lists (for stating that a
formatted message contains a raw error text verbatim). -/
def containsChars (pat : List Char) : List Char → Bool
  | [] => beginsWith pat []
  | c :: cs => beginsWith pat (c :: cs) || containsChars pat cs

/-! ### chatbot/agent/chat.py — the tool-execution loop

The model backend and the MCP dispatch are the loop's two effectful
collaborators; both enter the embedding as function parameters.  A backend
maps the current message array and the use-tools flag to the first choice of
its completion (`response.choices[0]`); the dispatch maps a tool name and
decoded arguments to either a result dict or a raised `MCPToolError`. -/

/-- One entry of `assistant_message.tool_calls`, with `function.arguments`
already JSON-decoded (the backend being abstract, the decode step is the
identity of this model). -/
structure ToolCallReq where
  id : String
  name : String
  arguments : List (String × JVal)

/-- `choice.message`. -/
structure ModelMessage where
  content : Option String
  tool_calls : List ToolCallReq

/-- `response.choices[0]`. -/
structure ModelChoice where
  finish_reason : String
  message : ModelMessage

/-- Messages of the evolving LLM context (system/user from `_build_messages`,
assistant tool-call requests and tool results appended by the loop;
tool-result content is the dict `build_tool_result_message` serializes). -/
inductive CtxMsg where
  | system (content : String)
  | user (content : String)
  | assistantMsg (content : Option String) (tool_calls : List ToolCallReq)
  | toolResult (tool_call_id : String) (content : JVal)

/-- `ToolCallSummary` (agent/schemas.py:32-46). -/
structure ToolCallSummary where
  tool : String
  success : Bool
  result_preview : Option String
deriving DecidableEq, Repr

/-- Python `str()` of a JSON value: identity on strings, `True`/`False`,
`None`; composite values render in a repr-like spelling (no code path under
verification formats a composite). -/
def pyStr : JVal → String
  | JVal.s s => s
  | JVal.i n => toString n
  | JVal.b b => if b then "True" else "False"
  | JVal.null => "None"
  | JVal.arr _ => "[...]"
  | JVal.obj _ => "\x7b...\x7d"

/-- `result.get(key, default)` rendered into an f-string. -/
def resultGetStr (result : List (String × JVal)) (key dflt : String) : String :=
  match dictGet? result key with
  | some v => pyStr v
  | none => dflt

/-- `_format_result_preview` (chat.py:283-314). -/
def formatResultPreview (tool_name : String) (result : List (String × JVal)) :
    String :=
  if tool_name = "add_task" then
    "Created task: " ++ resultGetStr result "title" "task"
  else if tool_name = "list_tasks" then
    "Found " ++ toString (match dictGet? result "tasks" with
      | some (JVal.arr xs) => xs.length
      | _ => 0) ++ " task(s)"
  else if tool_name = "complete_task" then
    "Marked \x27" ++ resultGetStr result "title" "task" ++ "\x27 as "
      ++ resultGetStr result "status" "updated"
  else if tool_name = "delete_task" then
    "Deleted task: " ++ resultGetStr result "title" "task"
  else if tool_name = "update_task" then
    "Updated task: " ++ resultGetStr result "title" "task"
  else "Operation completed"

/-- Outcome of `execute_mcp_tool` as seen by the loop: a result dict, or a
raised `MCPToolError` (the only exception type it raises). -/
inductive ExecOutcome where
  | ok (result : List (String × JVal))
  | err (e : MCPToolErr)

/-- Does this dispatch outcome format for the user without raising?  (A
`ToolValidationError` whose first record carries an empty loc does not.) -/
def execOutcomeFormats : ExecOutcome → Bool
  | .ok _ => true
  | .err e =>
    match format_tool_error_for_user e with
    | .ok _ => true
    | .error _ => false

/-- Per-round tool execution (chat.py:228-269), in request order: one
tool-result message and one summary per requested call, errors formatted
for the user inside the `except MCPToolError` block — where a raising
formatter (`IndexError`) escapes and aborts the whole round. -/
def processToolCalls (execTool : String → List (String × JVal) → ExecOutcome) :
    List ToolCallReq → Except PyExc (List CtxMsg × List ToolCallSummary)
  | [] => .ok ([], [])
  | tc :: rest =>
    match execTool tc.name tc.arguments with
    | .ok result =>
      match processToolCalls execTool rest with
      | .error exc => .error exc
      | .ok step =>
        .ok (CtxMsg.toolResult tc.id (JVal.obj result) :: step.1,
          { tool := tc.name, success := true,
            result_preview := some (formatResultPreview tc.name result) } :: step.2)
    | .err e =>
      match format_tool_error_for_user e with
      | .error exc => .error exc
      | .ok msg =>
        match processToolCalls execTool rest with
        | .error exc => .error exc
        | .ok step =>
          .ok (CtxMsg.toolResult tc.id (JVal.obj [("error", JVal.s msg)]) :: step.1,
            { tool := tc.name, success := false,
              result_preview := some msg } :: step.2)

/-- Result of a completed loop, instrumented with the trace of model calls:
one boolean per `create_chat_completion` call, recording its use-tools
flag. -/
structure LoopResult where
  content : String
  summaries : List ToolCallSummary
  modelCalls : List Bool

/-- How `_execute_chat_with_tools` ends: returning normally, or aborted by
an exception escaping a round (the model-call trace up to the abort kept). -/
inductive LoopOutcome where
  | done (r : LoopResult)
  | raised (exc : PyExc) (calls : List Bool)

/-- The model-call trace of either outcome. -/
def LoopOutcome.modelCalls : LoopOutcome → List Bool
  | .done r => r.modelCalls
  | .raised _ calls => calls

/-- The `while round_count < max_rounds` body of `_execute_chat_with_tools`
(chat.py:187-280), fuel = rounds remaining: each round issues one model call
with tools; a stop finish or an empty tool-call list ends the loop with
`content or ""`; otherwise the assistant message and all tool results are
appended and the loop continues — unless tool processing raises, which
aborts the function.  With the fuel exhausted, one final model call is made
with `use_tools=False` and its `content or ""` returned. -/
def chatLoopRounds (backend : List CtxMsg → Bool → ModelChoice)
    (execTool : String → List (String × JVal) → ExecOutcome) :
    List CtxMsg → List ToolCallSummary → List Bool → Nat → LoopOutcome
  | msgs, summaries, calls, 0 =>
    let choice := backend msgs false
    LoopOutcome.done
      { content := choice.message.content.getD "",
        summaries := summaries, modelCalls := calls ++ [false] }
  | msgs, summaries, calls, fuel + 1 =>
    let choice := backend msgs true
    if choice.finish_reason == "stop" || choice.message.tool_calls.isEmpty then
      LoopOutcome.done
        { content := choice.message.content.getD "",
          summaries := summaries, modelCalls := calls ++ [true] }
    else
      match processToolCalls execTool choice.message.tool_calls with
      | .error exc => LoopOutcome.raised exc (calls ++ [true])
      | .ok step =>
        chatLoopRounds backend execTool
          ((msgs ++ [CtxMsg.assistantMsg choice.message.content
              choice.message.tool_calls]) ++ step.1)
          (summaries ++ step.2) (calls ++ [true]) fuel

/-- `_execute_chat_with_tools` (chat.py:160-280). -/
def execute_chat_with_tools (backend : List CtxMsg → Bool → ModelChoice)
    (execTool : String → List (String × JVal) → ExecOutcome)
    (messages : List CtxMsg) (max_rounds : Nat) : LoopOutcome :=
  chatLoopRounds backend execTool messages [] [] max_rounds

/-- A model backend that requests one tool call on every call — the forced
final tools-omitted one included — and never produces content. -/
def alwaysToolBackend : List CtxMsg → Bool → ModelChoice :=
  fun _ _ => ⟨"tool_calls", ⟨none, [⟨"call_1", "list_tasks", []⟩]⟩⟩

/-- A dispatch stand-in whose every call succeeds with an empty dict. -/
def okExecTool : String → List (String × JVal) → ExecOutcome :=
  fun _ _ => ExecOutcome.ok []

/-! ### chatbot/mcp_server/main.py — POST /api/\x7buser_id\x7d/chat -/

/-- The parameter names `agent.chat.process_chat` declares (chat.py:45-50). -/
def processChatParamNames : List String :=
  ["message", "user_id", "db", "conversation_id"]

/-- The keyword arguments `chat_endpoint` passes at its `process_chat(...)`
call site (main.py:331-337). -/
def chatEndpointCallKwargs : List String :=
  ["message", "user_id", "db", "conversation_id", "auth_token"]

/-- Python call semantics for a function without a `**kwargs` catch-all:
the call binds iff every keyword argument names a declared parameter;
otherwise the call raises `TypeError` before the body runs. -/
def pythonKwargsBind (declared kwargs : List String) : Bool :=
  kwargs.all (fun k => declared.contains k)

/-- The success body `ChatResponse` (agent/schemas.py:49-60) that
`process_chat` returns when it is reached (its internal failures are caught
and turned into an apology message, still this shape). -/
structure ChatSuccessBody where
  message : String
  conversation_id : Nat
  tool_calls : Option (List ToolCallSummary)
deriving DecidableEq, Repr

/-- Responses of the chat endpoint. -/
inductive ChatEndpointResponse where
  | ok (body : ChatSuccessBody)
  | errorBody (status : Nat) (code : String)
deriving DecidableEq, Repr

/-- `chat_endpoint` (main.py:268-369) after body parsing: invalid UUID gives
HTTP 400, unavailable agent HTTP 503; otherwise the endpoint calls
`process_chat(message=…, user_id=…, db=…, conversation_id=…,
auth_token=…)` inside try/except.  `processChatResult` is the ChatResponse
that call would produce if it bound; any exception — including the
`TypeError` of a call that does not bind — is answered with the CHAT_FAILED
error flag at HTTP 200 (main.py:349-369). -/
def chat_endpoint (validUserUUID agentAvailable : Bool)
    (processChatResult : ChatSuccessBody) : ChatEndpointResponse :=
  if !validUserUUID then .errorBody 400 "INVALID_USER_ID"
  else if !agentAvailable then .errorBody 503 "AGENT_UNAVAILABLE"
  else if pythonKwargsBind processChatParamNames chatEndpointCallKwargs then
    .ok processChatResult
  else .errorBody 200 "CHAT_FAILED"

/-- Concrete store used by witnesses: one conversation of owner 7 holding
three messages with distinct timestamps. -/
def sampleDB : AgentDB :=
  { conversations := [⟨1, 7, 0, 0⟩]
    messages :=
      [ ⟨10, 1, .user, "hello", 5⟩
      , ⟨11, 1, .assistant, "hi there", 6⟩
      , ⟨12, 1, .user, "add milk", 7⟩ ] }

/-!
## Theorems
-/

theorem dictGet?_dictSet_same {α : Type} (d : List (String × α)) (k : String) (v : α) :
    dictGet? (dictSet d k v) k = some v := by
  induction d with
  | nil => simp [dictSet, dictGet?]
  | cons kv rest ih =>
    by_cases h : kv.1 = k
    · simp [dictSet, dictGet?, h]
    · simp [dictSet, dictGet?, h, ih]

theorem dictGet?_dictSet_other {α : Type} (d : List (String × α)) (k k' : String) (v : α)
    (hne : k' ≠ k) : dictGet? (dictSet d k v) k' = dictGet? d k' := by
  have hkk' : ¬ (k = k') := fun h => hne h.symm
  induction d with
  | nil => simp [dictSet, dictGet?, hkk']
  | cons kv rest ih =>
    obtain ⟨k₀, v₀⟩ := kv
    by_cases h : k₀ = k
    · subst h
      simp [dictSet, dictGet?, hkk']
    · by_cases h2 : k₀ = k'
      · simp [dictSet, dictGet?, h, h2, hne]
      · simp [dictSet, dictGet?, h, h2, ih]

/-- **C1** For every tool dispatch performed by `execute_mcp_tool`, the
dispatched parameter dict maps `user_id` to the authenticated user id handed
to the function — even when the caller-supplied arguments already contain a
`user_id` entry — and the whole dispatched map is independent of any
caller-supplied value for `user_id`: two argument maps that agree on every
key other than `user_id` dispatch identical parameter maps. -/
theorem execute_mcp_tool_user_id_is_server_derived
    (arguments : List (String × JVal)) (user_id : String) :
    dictGet? (executeMcpToolParameters arguments user_id) "user_id"
      = some (JVal.s user_id) ∧
    (∀ arguments' : List (String × JVal),
      (∀ k : String, k ≠ "user_id" → dictGet? arguments k = dictGet? arguments' k) →
      ∀ k : String, dictGet? (executeMcpToolParameters arguments user_id) k
        = dictGet? (executeMcpToolParameters arguments' user_id) k) := by
  constructor
  · exact dictGet?_dictSet_same arguments "user_id" (JVal.s user_id)
  · intro arguments' hagree k
    by_cases hk : k = "user_id"
    · subst hk
      simp only [executeMcpToolParameters]
      rw [dictGet?_dictSet_same, dictGet?_dictSet_same]
    · rw [executeMcpToolParameters, executeMcpToolParameters,
        dictGet?_dictSet_other _ _ _ _ hk, dictGet?_dictSet_other _ _ _ _ hk]
      exact hagree k hk

/-- Witness for C1 at a concrete input: the model supplies
`user_id = "attacker"` inside the arguments, the authenticated id is
`"victim"`; the dispatched map carries `"victim"` and agrees, key by key,
with the dispatch of the same arguments with the forged entry removed. -/
theorem execute_mcp_tool_user_id_is_server_derived_witness :
    dictGet? (executeMcpToolParameters
        [("task_id", JVal.s "t1"), ("user_id", JVal.s "attacker")] "victim") "user_id"
      = some (JVal.s "victim") ∧
    dictGet? (executeMcpToolParameters
        [("task_id", JVal.s "t1"), ("user_id", JVal.s "attacker")] "victim") "task_id"
      = dictGet? (executeMcpToolParameters [("task_id", JVal.s "t1")] "victim") "task_id" ∧
    dictGet? (executeMcpToolParameters
        [("task_id", JVal.s "t1"), ("user_id", JVal.s "attacker")] "victim") "user_id"
      = dictGet? (executeMcpToolParameters [("task_id", JVal.s "t1")] "victim") "user_id" := by
  have h := execute_mcp_tool_user_id_is_server_derived
    [("task_id", JVal.s "t1"), ("user_id", JVal.s "attacker")] "victim"
  have hagree : ∀ k : String, k ≠ "user_id" →
      dictGet? [("task_id", JVal.s "t1"), ("user_id", JVal.s "attacker")] k
        = dictGet? [("task_id", JVal.s "t1")] k := by
    intro k hk
    by_cases ht : "task_id" = k
    · simp [dictGet?, ht]
    · have hu : ¬ "user_id" = k := fun hh => hk hh.symm
      simp [dictGet?, ht, hu]
  exact ⟨h.1, h.2 [("task_id", JVal.s "t1")] hagree "task_id",
    h.2 [("task_id", JVal.s "t1")] hagree "user_id"⟩

/-- **C2 counterexample** The claim says the runtime-injected field
`user_id` never appears in the tool-listing output; but `to_dict`
(hence `list_tools`, hence GET /mcp/tools) exposes the full params-model
schema: the very first listed tool (`add_task`) carries `user_id` both
among its schema properties and in its `required` list. -/
theorem tool_listing_contains_user_id :
    (registryListTools.head?.map
      (fun t => ((t.parameters.properties.map Prod.fst).contains "user_id" &&
                 t.parameters.required.contains "user_id"))) = some true := by
  rfl

/-- **C2 (amended)** The runtime-injected field `user_id` is stripped from
the function declarations exposed to the model: for every MCP tool dict,
`mcp_to_openai_function` removes `user_id` from both the `properties` map
and the `required` list. (The raw tool-listing from the registry, by
contrast, retains the full schema including `user_id`.) -/
theorem mcp_to_openai_function_strips_user_id (t : MCPToolDict) :
    (∀ kv ∈ (mcp_to_openai_function t).properties, kv.1 ≠ "user_id") ∧
    "user_id" ∉ (mcp_to_openai_function t).required := by
  constructor
  · intro kv hkv
    have := List.of_mem_filter hkv
    simp only [SYSTEM_INJECTED_FIELDS, List.contains_cons, Bool.not_eq_true',
      Bool.or_eq_false_iff] at this
    intro hc
    simp [hc] at this
  · intro hmem
    have := List.of_mem_filter hmem
    simp [SYSTEM_INJECTED_FIELDS] at this

/-- Two lists that are permutations of each other, both sorted by an
integer key, and whose keys are pairwise distinct, are equal. -/
theorem eq_of_perm_of_sorted_key {α : Type} (key : α → Int) {l₁ l₂ : List α}
    (hp : l₁.Perm l₂)
    (hs₁ : l₁.Pairwise (fun a b => key a ≤ key b))
    (hs₂ : l₂.Pairwise (fun a b => key a ≤ key b))
    (hd : l₁.Pairwise (fun a b => key a ≠ key b)) : l₁ = l₂ := by
  have hd₂ : l₂.Pairwise (fun a b => key a ≠ key b) :=
    (hp.pairwise_iff (fun h => Ne.symm h)).mp hd
  have : IsAntisymm α (fun a b => key a ≤ key b ∧ (key a = key b → a = b)) :=
    ⟨fun a b hab hba => hab.2 (le_antisymm hab.1 hba.1)⟩
  exact List.eq_of_perm_of_sorted
    (r := fun a b => key a ≤ key b ∧ (key a = key b → a = b)) hp
    ((hs₁.and hd).imp (fun h => ⟨h.1, fun he => absurd he h.2⟩))
    ((hs₂.and hd₂).imp (fun h => ⟨h.1, fun he => absurd he h.2⟩))

/-- **C3** For every request to GET /conversations/\x7bid\x7d/messages whose
owner does not match the conversation's owner, the response is the 404
NOT_FOUND error body carrying zero message data, and it is identical —
same status code, same error code, same body — to the response for a
conversation id that does not exist at all. -/
theorem get_messages_ownership_isolation
    (db : AgentDB) (cid uid limit missingCid : Nat)
    (hwrong : ∀ c ∈ db.conversations, c.id = cid → c.user_id ≠ uid)
    (hmissing : ∀ c ∈ db.conversations, c.id ≠ missingCid) :
    get_messages db cid uid limit
      = MessagesResponse.err 404 "NOT_FOUND"
          "Conversation not found or you don\x27t have access" ∧
    get_messages db cid uid limit = get_messages db missingCid uid limit := by
  have h1 : getConversationById db cid uid = none := by
    rw [getConversationById, List.find?_eq_none]
    intro c hc
    simp only [Bool.and_eq_true, beq_iff_eq, not_and]
    intro hid huid
    exact hwrong c hc hid huid
  have h2 : getConversationById db missingCid uid = none := by
    rw [getConversationById, List.find?_eq_none]
    intro c hc
    simp only [Bool.and_eq_true, beq_iff_eq, not_and]
    intro hid _
    exact hmissing c hc hid
  refine ⟨?_, ?_⟩
  · simp [get_messages, get_conversation_messages, h1]
  · simp [get_messages, get_conversation_messages, h1, h2]

/-- Witness for C3: owner 8 requests owner 7's conversation 1 in `sampleDB`;
the response equals the 404 body and coincides with the response for the
absent conversation id 2. -/
theorem get_messages_ownership_isolation_witness :
    (∀ c ∈ sampleDB.conversations, c.id = 1 → c.user_id ≠ 8) ∧
    (∀ c ∈ sampleDB.conversations, c.id ≠ 2) ∧
    (get_messages sampleDB 1 8 50
      = MessagesResponse.err 404 "NOT_FOUND"
          "Conversation not found or you don\x27t have access" ∧
     get_messages sampleDB 1 8 50 = get_messages sampleDB 2 8 50) :=
  ⟨by decide, by decide,
    get_messages_ownership_isolation sampleDB 1 8 50 2 (by decide) (by decide)⟩

/-- **C9** For every conversation whose messages carry pairwise-distinct
creation times, `get_context_messages` returns at most `limit` messages;
they are exactly the chronologically last `limit` ones, in chronological
(oldest-first) order — formalised as the drop of the ascending sort — and
an omitted limit defaults to `context_message_limit = 10`. -/
theorem get_context_messages_bounded_recent
    (db : AgentDB) (cid : Nat) (lim : Nat)
    (hd : (db.messages.filter (fun m => m.conversation_id == cid)).Pairwise
      (fun a b => a.created_at ≠ b.created_at)) :
    (get_context_messages db cid (some lim)).length ≤ lim ∧
    get_context_messages db cid (some lim)
      = ((List.insertionSort (fun a b : Message => a.created_at ≤ b.created_at)
          (db.messages.filter (fun m => m.conversation_id == cid))).drop
          ((db.messages.filter (fun m => m.conversation_id == cid)).length - lim)).map
          (fun m => { role := m.role.value, content := m.content }) ∧
    get_context_messages db cid none = get_context_messages db cid (some 10) := by
  set ms := db.messages.filter (fun m => m.conversation_id == cid) with hms
  have hTotDesc : IsTotal Message (fun a b => b.created_at ≤ a.created_at) :=
    ⟨fun a b => le_total _ _⟩
  have hTransDesc : IsTrans Message (fun a b => b.created_at ≤ a.created_at) :=
    ⟨fun _ _ _ hab hbc => le_trans hbc hab⟩
  have hTotAsc : IsTotal Message (fun a b => a.created_at ≤ b.created_at) :=
    ⟨fun a b => le_total _ _⟩
  have hTransAsc : IsTrans Message (fun a b => a.created_at ≤ b.created_at) :=
    ⟨fun _ _ _ hab hbc => le_trans hab hbc⟩
  set D := List.insertionSort (fun a b : Message => b.created_at ≤ a.created_at) ms
    with hD
  set A := List.insertionSort (fun a b : Message => a.created_at ≤ b.created_at) ms
    with hA
  have hpermD : D.Perm ms := List.perm_insertionSort _ ms
  have hpermA : A.Perm ms := List.perm_insertionSort _ ms
  have hrev : D.reverse = A := by
    refine eq_of_perm_of_sorted_key (fun m => m.created_at)
      ((D.reverse_perm.trans hpermD).trans hpermA.symm) ?_ ?_ ?_
    · exact List.pairwise_reverse.mpr (List.sorted_insertionSort _ ms)
    · exact List.sorted_insertionSort _ ms
    · exact ((D.reverse_perm.trans hpermD).pairwise_iff
        (fun h => Ne.symm h)).mpr hd
  have hlenD : D.length = ms.length := hpermD.length_eq
  have h0 : get_context_messages db cid (some lim)
      = ((D.take lim).reverse).map
        (fun m => { role := m.role.value, content := m.content }) := rfl
  refine ⟨?_, ?_, rfl⟩
  · rw [h0]
    simp only [List.length_map, List.length_reverse, List.length_take]
    exact Nat.min_le_left _ _
  · rw [h0, List.reverse_take, hlenD, hrev]

/-- Witness for C9 on `sampleDB` (three messages, limit 2): the context
window is the last two messages, oldest first. -/
theorem get_context_messages_bounded_recent_witness :
    ((sampleDB.messages.filter (fun m => m.conversation_id == 1)).Pairwise
      (fun a b => a.created_at ≠ b.created_at)) ∧
    (get_context_messages sampleDB 1 (some 2)).length ≤ 2 ∧
    get_context_messages sampleDB 1 (some 2)
      = ((List.insertionSort (fun a b : Message => a.created_at ≤ b.created_at)
          (sampleDB.messages.filter (fun m => m.conversation_id == 1))).drop
          ((sampleDB.messages.filter (fun m => m.conversation_id == 1)).length - 2)).map
          (fun m => { role := m.role.value, content := m.content }) ∧
    get_context_messages sampleDB 1 none = get_context_messages sampleDB 1 (some 10) :=
  ⟨by decide, get_context_messages_bounded_recent sampleDB 1 2 (by decide)⟩

/-- Unfolding of `get_or_create_conversation` at an explicit conversation id. -/
theorem get_or_create_conversation_some_eq (db : AgentDB) (now : Int)
    (uid cid freshId : Nat) :
    get_or_create_conversation db now uid (some cid) freshId
      = match getConversationById db cid uid with
        | some conv =>
          if now - session_timeout_minutes * 60 ≤ conv.last_activity then (conv, db)
          else findOrCreateConversation db uid (now - session_timeout_minutes * 60)
            now freshId
        | none => findOrCreateConversation db uid (now - session_timeout_minutes * 60)
            now freshId := rfl

/-- The fallback either returns the most recently active conversation of the
owner at or after the cutoff, leaving the store untouched, or — when none
qualifies — creates and appends a fresh conversation. -/
theorem findOrCreateConversation_cases (db : AgentDB) (uid : Nat)
    (cutoff now : Int) (freshId : Nat) :
    (activeConversations db uid cutoff ≠ [] →
      (findOrCreateConversation db uid cutoff now freshId).2 = db ∧
      (findOrCreateConversation db uid cutoff now freshId).1
        ∈ activeConversations db uid cutoff ∧
      ∀ c ∈ activeConversations db uid cutoff,
        c.last_activity
          ≤ (findOrCreateConversation db uid cutoff now freshId).1.last_activity) ∧
    (activeConversations db uid cutoff = [] →
      findOrCreateConversation db uid cutoff now freshId
        = ({ id := freshId, user_id := uid, created_at := now, last_activity := now },
           { db with conversations := db.conversations
               ++ [{ id := freshId, user_id := uid, created_at := now,
                     last_activity := now }] })) := by
  have hTot : IsTotal Conversation (fun a b => b.last_activity ≤ a.last_activity) :=
    ⟨fun a b => le_total _ _⟩
  have hTrans : IsTrans Conversation (fun a b => b.last_activity ≤ a.last_activity) :=
    ⟨fun _ _ _ hab hbc => le_trans hbc hab⟩
  set active := activeConversations db uid cutoff with hactive
  set S := List.insertionSort
    (fun a b : Conversation => b.last_activity ≤ a.last_activity) active with hS
  have hperm : S.Perm active := List.perm_insertionSort _ _
  have hsorted : S.Pairwise (fun a b => b.last_activity ≤ a.last_activity) :=
    List.sorted_insertionSort _ _
  constructor
  · intro hne
    have hSne : S ≠ [] := by
      intro h
      have := hperm.length_eq
      rw [h] at this
      exact hne (List.eq_nil_of_length_eq_zero this.symm)
    obtain ⟨x, t, hxt⟩ := List.exists_cons_of_ne_nil hSne
    have hres : findOrCreateConversation db uid cutoff now freshId = (x, db) := by
      rw [findOrCreateConversation, ← hactive, ← hS, hxt]
      rfl
    refine ⟨by rw [hres], ?_, ?_⟩
    · rw [hres]
      exact hperm.subset (hxt ▸ List.mem_cons_self x t)
    · intro c hc
      rw [hres]
      have hcS : c ∈ S := (hperm.mem_iff).mpr hc
      rw [hxt] at hcS hsorted
      rcases List.mem_cons.mp hcS with h | h
      · exact le_of_eq (by rw [h])
      · exact (List.pairwise_cons.mp hsorted).1 c h
  · intro hnil
    have hSnil : S = [] := by
      rw [hS, hnil]
      rfl
    rw [findOrCreateConversation, ← hactive, ← hS, hSnil]
    rfl

/-- **C6 counterexample** At the exact timeout boundary the claim and the
code part ways: with `last_activity = 0` and `now = 1800` seconds
(`now − last_activity` equal to the 30-minute timeout, hence not `<` it),
the claim says the explicitly requested conversation is not reused, yet
the code reuses it and returns it unchanged. -/
theorem get_or_create_conversation_boundary :
    ¬ ((1800 : Int) - 0 < session_timeout_minutes * 60) ∧
    get_or_create_conversation ⟨[⟨1, 7, 0, 0⟩], []⟩ 1800 7 (some 1) 99
      = (⟨1, 7, 0, 0⟩, ⟨[⟨1, 7, 0, 0⟩], []⟩) :=
  ⟨by decide, by decide⟩

/-- **C6 (amended)** With an explicit conversation id, the conversation is
reused exactly when it belongs to the requesting owner and
`now − last_activity ≤ timeout` (the code compares `last_activity ≥ cutoff`
with `cutoff = now − timeout`, timeout defaulting to 30 minutes); in every
other case — unknown id, wrong owner, or timeout strictly exceeded — the
manager falls back: it returns the owner's most recently active conversation
with `last_activity ≥ cutoff`, or creates a new one when there is none. -/
theorem get_or_create_conversation_reuse_rule
    (db : AgentDB) (now : Int) (uid cid freshId : Nat) :
    (∀ conv, getConversationById db cid uid = some conv →
      ((now - conv.last_activity ≤ session_timeout_minutes * 60 →
        get_or_create_conversation db now uid (some cid) freshId = (conv, db)) ∧
       (session_timeout_minutes * 60 < now - conv.last_activity →
        get_or_create_conversation db now uid (some cid) freshId
          = findOrCreateConversation db uid (now - session_timeout_minutes * 60)
              now freshId))) ∧
    (getConversationById db cid uid = none →
      get_or_create_conversation db now uid (some cid) freshId
        = findOrCreateConversation db uid (now - session_timeout_minutes * 60)
            now freshId) ∧
    (activeConversations db uid (now - session_timeout_minutes * 60) ≠ [] →
      (findOrCreateConversation db uid (now - session_timeout_minutes * 60)
          now freshId).2 = db ∧
      (findOrCreateConversation db uid (now - session_timeout_minutes * 60)
          now freshId).1
        ∈ activeConversations db uid (now - session_timeout_minutes * 60) ∧
      ∀ c ∈ activeConversations db uid (now - session_timeout_minutes * 60),
        c.last_activity ≤ (findOrCreateConversation db uid
          (now - session_timeout_minutes * 60) now freshId).1.last_activity) ∧
    (activeConversations db uid (now - session_timeout_minutes * 60) = [] →
      findOrCreateConversation db uid (now - session_timeout_minutes * 60) now freshId
        = ({ id := freshId, user_id := uid, created_at := now, last_activity := now },
           { db with conversations := db.conversations
               ++ [{ id := freshId, user_id := uid, created_at := now,
                     last_activity := now }] })) := by
  have hfb := findOrCreateConversation_cases db uid
    (now - session_timeout_minutes * 60) now freshId
  refine ⟨?_, ?_, hfb.1, hfb.2⟩
  · intro conv h
    constructor
    · intro hle
      rw [get_or_create_conversation_some_eq, h]
      show (if now - session_timeout_minutes * 60 ≤ conv.last_activity then (conv, db)
        else findOrCreateConversation db uid (now - session_timeout_minutes * 60)
          now freshId) = (conv, db)
      rw [if_pos (by omega)]
    · intro hgt
      rw [get_or_create_conversation_some_eq, h]
      show (if now - session_timeout_minutes * 60 ≤ conv.last_activity then (conv, db)
        else findOrCreateConversation db uid (now - session_timeout_minutes * 60)
          now freshId)
        = findOrCreateConversation db uid (now - session_timeout_minutes * 60) now freshId
      rw [if_neg (by omega)]
  · intro h
    rw [get_or_create_conversation_some_eq, h]

/-- Witness for C6: owner 7 explicitly continues conversation 1 of
`sampleDB` well within the timeout and gets it back unchanged. -/
theorem get_or_create_conversation_reuse_rule_witness :
    getConversationById sampleDB 1 7 = some ⟨1, 7, 0, 0⟩ ∧
    (100 : Int) - (0 : Int) ≤ session_timeout_minutes * 60 ∧
    get_or_create_conversation sampleDB 100 7 (some 1) 99 = (⟨1, 7, 0, 0⟩, sampleDB) :=
  ⟨rfl, by decide,
    ((get_or_create_conversation_reuse_rule sampleDB 100 7 1 99).1
      ⟨1, 7, 0, 0⟩ rfl).1 (by decide)⟩

theorem dictGet?_eq_none_of_not_mem {α : Type} (d : List (String × α)) (k : String)
    (h : k ∉ d.map Prod.fst) : dictGet? d k = none := by
  induction d with
  | nil => rfl
  | cons kv rest ih =>
    simp only [List.map_cons, List.mem_cons] at h
    push_neg at h
    obtain ⟨k₀, v₀⟩ := kv
    simp only [dictGet?]
    rw [if_neg (fun hh => h.1 hh.symm)]
    exact ih h.2

/-- **C7** For every call to /mcp/call naming a registered tool whose
parameters violate the declared schema in more than one place, the server
returns the single VALIDATION_ERROR envelope whose details serialize the
whole collected violation list — every violation, not just the first —
and the tool handler is not invoked. -/
theorem call_mcp_tool_collects_all_violations
    (tool : String) (t : ToolDefinition) (params : List (String × JVal))
    (handler : HandlerOutcome) (isDev : Bool)
    (hreg : registryGet tool = some t)
    (hviol : 2 ≤ (t.validate params).length) :
    call_mcp_tool tool params handler isDev
      = (validationErrorEnvelope (t.validate params), false) := by
  have hne : (t.validate params).isEmpty = false := by
    cases h : t.validate params with
    | nil => rw [h] at hviol; exact absurd hviol (by decide)
    | cons a l => simp [List.isEmpty]
  simp [call_mcp_tool, hreg, hne]

/-- Witness for C7: `add_task` called with an empty parameter map misses the
two required fields `user_id` and `title`; the envelope enumerates both and
the handler is not invoked. -/
theorem call_mcp_tool_collects_all_violations_witness :
    registryGet "add_task" = some addTaskTool ∧
    addTaskTool.validate []
      = [⟨["user_id"], "Field required", "missing"⟩,
         ⟨["title"], "Field required", "missing"⟩] ∧
    call_mcp_tool "add_task" [] (HandlerOutcome.success JVal.null) false
      = (validationErrorEnvelope (addTaskTool.validate []), false) :=
  ⟨rfl, by decide,
    call_mcp_tool_collects_all_violations "add_task" addTaskTool []
      (HandlerOutcome.success JVal.null) false rfl (by decide)⟩

/-- **C10** For every `update_task` invocation whose parameter map holds
exactly the keys `user_id` and `task_id` — no updatable field, no clear
flag — `UpdateTaskParams` construction fails (either on a field error or,
when both ids validate, on `model_post_init`), so /mcp/call returns a
status "error" envelope and the handler is never invoked. -/
theorem update_task_without_fields_rejected
    (params : List (String × JVal)) (handler : HandlerOutcome) (isDev : Bool)
    (hkeys : params.map Prod.fst = ["user_id", "task_id"]) :
    validateUpdateTask params ≠ [] ∧
    (call_mcp_tool "update_task" params handler isDev).1.status = "error" ∧
    (call_mcp_tool "update_task" params handler isDev).2 = false := by
  have hnone : ∀ k : String, k ∉ (["user_id", "task_id"] : List String) →
      dictGet? params k = none := by
    intro k hk
    exact dictGet?_eq_none_of_not_mem params k (by rw [hkeys]; exact hk)
  have htitle := hnone "title" (by decide)
  have hdesc := hnone "description" (by decide)
  have hprio := hnone "priority" (by decide)
  have hcat := hnone "category" (by decide)
  have htags := hnone "tags" (by decide)
  have hdd := hnone "due_date" (by decide)
  have hdt := hnone "due_time" (by decide)
  have hcd := hnone "clear_due_date" (by decide)
  have hct := hnone "clear_due_time" (by decide)
  have hcdesc := hnone "clear_description" (by decide)
  have hupd : updateTaskHasUpdate params = false := by
    simp [updateTaskHasUpdate, providedNonNull, flagTrue,
      htitle, hdesc, hprio, hcat, htags, hdd, hdt, hcd, hct, hcdesc]
  have hfe : updateTaskFieldErrors params
      = validateUUIDField params "user_id" ++ validateUUIDField params "task_id" := by
    simp [updateTaskFieldErrors, validateOptionalTitle, validateOptionalStr,
      validateEnumField, validateTagsField, validateBoolFlag,
      htitle, hdesc, hprio, hcat, htags, hdd, hdt, hcd, hct, hcdesc]
  have hv : validateUpdateTask params ≠ [] := by
    rw [validateUpdateTask]
    by_cases he : updateTaskFieldErrors params = []
    · rw [he, hupd]
      simp
    · have : (updateTaskFieldErrors params).isEmpty = false := by
        cases h : updateTaskFieldErrors params with
        | nil => exact absurd h he
        | cons a l => simp [List.isEmpty]
      rw [this]
      simpa using he
  have hvE : (validateUpdateTask params).isEmpty = false := by
    cases h : validateUpdateTask params with
    | nil => exact absurd h hv
    | cons a l => simp [List.isEmpty]
  have hcall : call_mcp_tool "update_task" params handler isDev
      = (validationErrorEnvelope (validateUpdateTask params), false) := by
    have hreg : registryGet "update_task" = some updateTaskTool := rfl
    have hval : updateTaskTool.validate = validateUpdateTask := rfl
    simp [call_mcp_tool, hreg, hval, hvE]
  exact ⟨hv, by rw [hcall]; rfl, by rw [hcall]⟩

/-- Witness for C10: `update_task` called with only a (valid) `user_id` and
`task_id`; the call yields a status "error" envelope and no handler run. -/
theorem update_task_without_fields_rejected_witness :
    ([("user_id", JVal.s "123e4567-e89b-12d3-a456-426614174000"),
      ("task_id", JVal.s "00000000-0000-0000-0000-000000000001")].map Prod.fst
      = ["user_id", "task_id"]) ∧
    (validateUpdateTask
      [("user_id", JVal.s "123e4567-e89b-12d3-a456-426614174000"),
       ("task_id", JVal.s "00000000-0000-0000-0000-000000000001")] ≠ [] ∧
     (call_mcp_tool "update_task"
        [("user_id", JVal.s "123e4567-e89b-12d3-a456-426614174000"),
         ("task_id", JVal.s "00000000-0000-0000-0000-000000000001")]
        (HandlerOutcome.success JVal.null) false).1.status = "error" ∧
     (call_mcp_tool "update_task"
        [("user_id", JVal.s "123e4567-e89b-12d3-a456-426614174000"),
         ("task_id", JVal.s "00000000-0000-0000-0000-000000000001")]
        (HandlerOutcome.success JVal.null) false).2 = false) :=
  ⟨rfl, update_task_without_fields_rejected
    [("user_id", JVal.s "123e4567-e89b-12d3-a456-426614174000"),
     ("task_id", JVal.s "00000000-0000-0000-0000-000000000001")]
    (HandlerOutcome.success JVal.null) false rfl⟩

/-- **C8 counterexample** `format_tool_error_for_user` interpolates the
exception-derived message of a `ToolExecutionError` verbatim — here the raw
text "boom" — into the user-visible string; the function takes no
development-mode input at all, so this happens outside development mode
just the same. -/
theorem tool_execution_error_leaks_raw_text :
    format_tool_error_for_user (MCPToolErr.executionError "add_task" "boom" [])
      = Except.ok "I encountered an issue: Tool \x27add_task\x27 failed: boom" ∧
    (format_tool_error_for_user
        (MCPToolErr.executionError "add_task" "boom" [])).toOption.map
      (fun s => containsChars "boom".data s.data) = some true :=
  ⟨rfl, by decide⟩

/-- **C8 (amended)** Every transport-level failure of a tool invocation
(`MCPServerUnavailable`) is surfaced to the end user as one fixed generic,
non-technical sentence, independent of the underlying url and error text.
(Other tool-execution failures, by contrast, interpolate the
exception-derived message with no development-mode gating.) -/
theorem transport_failure_single_generic_sentence (url error : String) :
    format_tool_error_for_user (MCPToolErr.serverUnavailable url error)
      = Except.ok "I\x27m having trouble connecting to the task service. Please try again in a moment." :=
  rfl

theorem chatLoopRounds_calls_length (backend : List CtxMsg → Bool → ModelChoice)
    (execTool : String → List (String × JVal) → ExecOutcome) :
    ∀ (fuel : Nat) (msgs : List CtxMsg) (summaries : List ToolCallSummary)
      (calls : List Bool),
    (chatLoopRounds backend execTool msgs summaries calls fuel).modelCalls.length
      ≤ calls.length + fuel + 1 := by
  intro fuel
  induction fuel with
  | zero =>
    intro msgs s c
    simp [chatLoopRounds, LoopOutcome.modelCalls]
  | succ n ih =>
    intro msgs s c
    simp only [chatLoopRounds]
    by_cases h : ((backend msgs true).finish_reason == "stop"
        || (backend msgs true).message.tool_calls.isEmpty) = true
    · rw [if_pos h]
      simp only [LoopOutcome.modelCalls, List.length_append, List.length_cons,
        List.length_nil]
      omega
    · rw [if_neg h]
      cases hpt : processToolCalls execTool (backend msgs true).message.tool_calls with
      | error exc =>
        simp only [LoopOutcome.modelCalls, List.length_append, List.length_cons,
          List.length_nil]
        omega
      | ok step =>
        have := ih ((msgs ++ [CtxMsg.assistantMsg (backend msgs true).message.content
            (backend msgs true).message.tool_calls]) ++ step.1)
          (s ++ step.2) (c ++ [true])
        simp only [List.length_append, List.length_cons, List.length_nil] at this ⊢
        omega

theorem processToolCalls_all_format
    (execTool : String → List (String × JVal) → ExecOutcome)
    (hfmt : ∀ name args, execOutcomeFormats (execTool name args) = true) :
    ∀ tcs : List ToolCallReq,
    ∃ step, processToolCalls execTool tcs = Except.ok step := by
  intro tcs
  induction tcs with
  | nil => exact ⟨([], []), rfl⟩
  | cons tc rest ih =>
    obtain ⟨step, hstep⟩ := ih
    cases hexec : execTool tc.name tc.arguments with
    | ok result =>
      exact ⟨(CtxMsg.toolResult tc.id (JVal.obj result) :: step.1,
        { tool := tc.name, success := true,
          result_preview := some (formatResultPreview tc.name result) } :: step.2),
        by simp [processToolCalls, hexec, hstep]⟩
    | err e =>
      have hf := hfmt tc.name tc.arguments
      rw [hexec] at hf
      cases hfe : format_tool_error_for_user e with
      | error exc =>
        exfalso
        simp [execOutcomeFormats, hfe] at hf
      | ok msg =>
        exact ⟨(CtxMsg.toolResult tc.id (JVal.obj [("error", JVal.s msg)]) :: step.1,
          { tool := tc.name, success := false, result_preview := some msg } :: step.2),
          by simp [processToolCalls, hexec, hfe, hstep]⟩

theorem chatLoopRounds_always_tools (backend : List CtxMsg → Bool → ModelChoice)
    (execTool : String → List (String × JVal) → ExecOutcome)
    (halways : ∀ msgs, (backend msgs true).finish_reason ≠ "stop" ∧
      (backend msgs true).message.tool_calls ≠ [])
    (hfmt : ∀ name args, execOutcomeFormats (execTool name args) = true) :
    ∀ (fuel : Nat) (msgs : List CtxMsg) (summaries : List ToolCallSummary)
      (calls : List Bool),
    ∃ r : LoopResult,
      chatLoopRounds backend execTool msgs summaries calls fuel
        = LoopOutcome.done r ∧
      r.modelCalls = calls ++ (List.replicate fuel true ++ [false]) := by
  intro fuel
  induction fuel with
  | zero =>
    intro msgs s c
    refine ⟨_, rfl, ?_⟩
    simp
  | succ n ih =>
    intro msgs s c
    have h := halways msgs
    have h1 : ((backend msgs true).finish_reason == "stop") = false :=
      beq_eq_false_iff_ne.mpr h.1
    have h2 : (backend msgs true).message.tool_calls.isEmpty = false := by
      cases htc : (backend msgs true).message.tool_calls with
      | nil => exact absurd htc h.2
      | cons a l => rfl
    obtain ⟨step, hstep⟩ := processToolCalls_all_format execTool hfmt
      (backend msgs true).message.tool_calls
    obtain ⟨r, hr, hrc⟩ := ih ((msgs ++ [CtxMsg.assistantMsg
        (backend msgs true).message.content (backend msgs true).message.tool_calls])
        ++ step.1) (s ++ step.2) (c ++ [true])
    refine ⟨r, ?_, ?_⟩
    · simp only [chatLoopRounds, h1, h2, Bool.or_self, Bool.false_eq_true,
        if_false, hstep]
      exact hr
    · rw [hrc]
      simp [List.replicate_succ, List.append_assoc]

/-- **C5 (amended)** For every model backend and dispatch, the tool loop
issues at most `max_rounds + 1` model calls in total — also when a round is
aborted by an exception.  Against a backend that requests at least one tool
call on every tool-enabled round AND a dispatch whose every tool-error
outcome formats without raising (no validation-error record with an empty
loc, such as the update_task post-init error, reaches the formatter), it
completes with exactly `max_rounds + 1` calls, the final extra call with
tool declarations omitted.  The returned message is the last call's content
with `None` coerced to `""` — the code does not guarantee it non-empty. -/
theorem chat_loop_round_bound
    (backend : List CtxMsg → Bool → ModelChoice)
    (execTool : String → List (String × JVal) → ExecOutcome)
    (messages : List CtxMsg) (max_rounds : Nat) :
    (execute_chat_with_tools backend execTool messages max_rounds).modelCalls.length
      ≤ max_rounds + 1 ∧
    ((∀ msgs, (backend msgs true).finish_reason ≠ "stop" ∧
        (backend msgs true).message.tool_calls ≠ []) →
     (∀ name args, execOutcomeFormats (execTool name args) = true) →
      ∃ r : LoopResult,
        execute_chat_with_tools backend execTool messages max_rounds
          = LoopOutcome.done r ∧
        r.modelCalls = List.replicate max_rounds true ++ [false]) := by
  constructor
  · have := chatLoopRounds_calls_length backend execTool max_rounds messages [] []
    simpa [execute_chat_with_tools] using this
  · intro halways hfmt
    obtain ⟨r, hr, hrc⟩ := chatLoopRounds_always_tools backend execTool halways hfmt
      max_rounds messages [] []
    refine ⟨r, ?_, ?_⟩
    · simpa [execute_chat_with_tools] using hr
    · simpa using hrc

/-- Witness for C5 at the default `max_tool_rounds = 5`: against a backend
requesting a tool call on every tool-enabled round and a dispatch whose
outcomes all format, the run completes with exactly six model calls, the
last with tools omitted. -/
theorem chat_loop_round_bound_witness :
    (execute_chat_with_tools alwaysToolBackend okExecTool
        [CtxMsg.system "sys"] max_tool_rounds).modelCalls.length
      ≤ max_tool_rounds + 1 ∧
    (execute_chat_with_tools alwaysToolBackend okExecTool
        [CtxMsg.system "sys"] max_tool_rounds).modelCalls
      = List.replicate max_tool_rounds true ++ [false] :=
  ⟨(chat_loop_round_bound alwaysToolBackend okExecTool
      [CtxMsg.system "sys"] max_tool_rounds).1,
   by
    obtain ⟨r, hr, hrc⟩ := (chat_loop_round_bound alwaysToolBackend okExecTool
        [CtxMsg.system "sys"] max_tool_rounds).2
      (fun _ => ⟨(by decide : ("tool_calls" : String) ≠ "stop"),
        List.cons_ne_nil _ _⟩)
      (fun _ _ => rfl)
    rw [hr]
    exact hrc⟩

/-- **C5 counterexample** The always-requesting backend answers the forced
final (tools-omitted) call with `content = None`; the loop completes its
`max_tool_rounds + 1` calls and returns `content or ""`, i.e. the empty
string — the claimed non-empty final message fails. -/
theorem chat_loop_final_message_empty :
    execute_chat_with_tools alwaysToolBackend okExecTool
        [CtxMsg.system "sys", CtxMsg.user "hi"] max_tool_rounds
      = LoopOutcome.done
          { content := ""
            summaries := List.replicate max_tool_rounds
              { tool := "list_tasks", success := true,
                result_preview := some "Found 0 task(s)" }
            modelCalls := List.replicate max_tool_rounds true ++ [false] } :=
  rfl

/-- **C4** (code bug) `chat_endpoint` passes `auth_token` at its
`process_chat(...)` call site, but `process_chat` declares no such
parameter, so the call raises `TypeError` before any processing: with a
valid owner UUID and the agent available, every request — whatever
`process_chat` would have answered — lands in the CHAT_FAILED error body
(HTTP 200, error flag set) and the documented success shape
`\x7bmessage, conversation_id, tool_calls?\x7d` is unreachable. -/
theorem chat_endpoint_call_never_binds (r : ChatSuccessBody) :
    pythonKwargsBind processChatParamNames chatEndpointCallKwargs = false ∧
    chat_endpoint true true r = ChatEndpointResponse.errorBody 200 "CHAT_FAILED" :=
  ⟨rfl, rfl⟩

end Lumina


